import Mathlib

/-!
Verification of the conversation-turn orchestration logic of the
AI-Tutor-Avatar application.  The Python sources in `src/` are shallowly
embedded: Python strings become `List Char`, mutable objects become
records threaded through pure functions, and the single suspension point
of the avatar synthesizer (`speak_ssml_async(...).get()`) becomes an
explicit event in a small transition system.
-/

set_option maxHeartbeats 1000000

namespace AvatarTutor

/-- A Python `str`, modelled as its list of Unicode characters. -/
abbrev Text := List Char

/-- Characters removed by Python `str.strip()` at either end of a string
(the `str.isspace` set: ASCII whitespace, the information separators,
NEL, NBSP and the Unicode space separators). -/
def pyIsSpace (c : Char) : Bool :=
  let n := c.toNat
  n = 0x20 || n = 0x09 || n = 0x0A || n = 0x0D || n = 0x0B || n = 0x0C ||
  (0x1C ≤ n && n ≤ 0x1F) || n = 0x85 || n = 0xA0 || n = 0x1680 ||
  (0x2000 ≤ n && n ≤ 0x200A) || n = 0x2028 || n = 0x2029 || n = 0x202F ||
  n = 0x205F || n = 0x3000

/-- Python `str.strip()`: drop leading and trailing whitespace. -/
def pyStrip (l : Text) : Text :=
  ((l.dropWhile pyIsSpace).reverse.dropWhile pyIsSpace).reverse

/-- The codepoints deleted by `sanitize_input` in `src/utils.py`:
the regex character class `[\x00-\x08\x0B-\x0C\x0E-\x1F\x7F-\x9F]`. -/
def isRemovedControl (c : Char) : Bool :=
  let n := c.toNat
  n ≤ 0x08 || (0x0B ≤ n && n ≤ 0x0C) || (0x0E ≤ n && n ≤ 0x1F) ||
  (0x7F ≤ n && n ≤ 0x9F)

/-- `sanitize_input` from `src/utils.py`: empty input is returned as the
empty string; otherwise the control characters matching the regex are
removed, the result is stripped, and finally truncated to `max_length`
if it is longer. -/
def sanitize_input (text : Text) (max_length : Nat) : Text :=
  if text = [] then []
  else
    let t1 := text.filter (fun c => !(isRemovedControl c))
    let t2 := pyStrip t1
    if max_length < t2.length then t2.take max_length else t2

/-- Default sentence punctuation of `MessageBuffer.__init__`
(`['.', '?', '!', ':', ';']`). -/
def defaultPunctuations : List Char := ['.', '?', '!', ':', ';']

/-- `MessageBuffer` from `src/utils.py`: accumulates streaming chunks. -/
structure MessageBuffer where
  buffer : Text
  complete_sentences : List Text
  punctuations : List Char
deriving DecidableEq

/-- `MessageBuffer.__init__`: `sentence_punctuations or default` —
a `None` or empty argument falls back to the default list. -/
def MessageBuffer.init (sentence_punctuations : Option (List Char)) : MessageBuffer :=
  { buffer := []
    complete_sentences := []
    punctuations :=
      match sentence_punctuations with
      | some l => if l = [] then defaultPunctuations else l
      | none => defaultPunctuations }

/-- Whether a (Python) string is non-empty and its last character lies in
the punctuation list: the emission condition of `add_chunk`. -/
def lastIsPunct (l : Text) (ps : List Char) : Bool :=
  match l.getLast? with
  | some c => ps.contains c
  | none => false

/-- `MessageBuffer.add_chunk`: append the chunk to the buffer; if the
buffer now ends with a sentence punctuation, emit the whole buffer as one
completed sentence and empty the buffer.  Returns the new state together
with the list of sentences returned to the caller. -/
def MessageBuffer.add_chunk (mb : MessageBuffer) (chunk : Text) :
    MessageBuffer × List Text :=
  let buf := mb.buffer ++ chunk
  if lastIsPunct buf mb.punctuations then
    ({ mb with buffer := [], complete_sentences := mb.complete_sentences ++ [buf] },
     [buf])
  else
    ({ mb with buffer := buf }, [])

/-- `MessageBuffer.flush`: return the remaining buffer content (if any)
as a final unit, emptying the buffer. -/
def MessageBuffer.flush (mb : MessageBuffer) : MessageBuffer × Option Text :=
  if mb.buffer = [] then (mb, none)
  else
    ({ mb with buffer := [], complete_sentences := mb.complete_sentences ++ [mb.buffer] },
     some mb.buffer)

/-- `MessageBuffer.clear`: reset buffer and accumulated sentences. -/
def MessageBuffer.clear (mb : MessageBuffer) : MessageBuffer :=
  { mb with buffer := [], complete_sentences := [] }

/-- Feed a list of chunks through `add_chunk` in order, collecting every
emitted sentence in emission order. -/
def MessageBuffer.add_chunks (mb : MessageBuffer) :
    List Text → MessageBuffer × List Text
  | [] => (mb, [])
  | c :: cs =>
    let r₁ := mb.add_chunk c
    let r₂ := r₁.1.add_chunks cs
    (r₂.1, r₁.2 ++ r₂.2)

theorem add_chunk_concat (mb : MessageBuffer) (c : Text) :
    ((mb.add_chunk c).2.flatten ++ (mb.add_chunk c).1.buffer) = mb.buffer ++ c := by
  unfold MessageBuffer.add_chunk
  by_cases h : lastIsPunct (mb.buffer ++ c) mb.punctuations
  · simp [h]
  · simp [h]

theorem add_chunks_concat (mb : MessageBuffer) (cs : List Text) :
    ((mb.add_chunks cs).2.flatten ++ (mb.add_chunks cs).1.buffer) =
      mb.buffer ++ cs.flatten := by
  induction cs generalizing mb with
  | nil => simp [MessageBuffer.add_chunks]
  | cons c cs ih =>
    have h₁ := add_chunk_concat mb c
    have h₂ := ih (mb.add_chunk c).1
    simp only [MessageBuffer.add_chunks, List.flatten_append, List.flatten_cons,
      List.append_assoc] at *
    rw [h₂, ← List.append_assoc, h₁, List.append_assoc]

/-- Concatenation of the outputs of a chunk sequence followed by a final
`flush`, in emission order. -/
def MessageBuffer.outputs_with_flush (mb : MessageBuffer) (cs : List Text) :
    List Text :=
  let r := mb.add_chunks cs
  r.2 ++ (r.1.flush).2.toList

/-- Claim C1: for every fragment sequence fed to a `MessageBuffer` since
its last `clear`, concatenating in emission order every string returned
by `add_chunk` and `flush` reproduces exactly the concatenation of the
input fragments — no characters dropped, duplicated or reordered. -/
theorem c1_message_buffer_concat (mb : MessageBuffer) (cs : List Text) :
    ((mb.clear).outputs_with_flush cs).flatten = cs.flatten := by
  have h := add_chunks_concat mb.clear cs
  unfold MessageBuffer.outputs_with_flush
  set r := (mb.clear).add_chunks cs with hr
  have hbuf : (r.1.flush).2.toList.flatten = r.1.buffer := by
    unfold MessageBuffer.flush
    by_cases hb : r.1.buffer = []
    · simp [hb]
    · simp [hb]
  rw [List.flatten_append, hbuf, h]
  simp [MessageBuffer.clear]

/-- The three fragments of the specification example. -/
def exampleFragments : List Text :=
  ["Hel".toList, "lo world. How ".toList, "are you?".toList]

/-- Claim C2 counterexample: feeding the fragments
`["Hel", "lo world. How ", "are you?"]` to a fresh `MessageBuffer` emits
the single unit `"Hello world. How are you?"` (the trailing `.` of
`"Hello world."` is an internal boundary that `add_chunk` never splits
on), not the two sentences `["Hello world.", " How are you?"]` the claim
asserts; `flush` afterwards does return `none`. -/
theorem c2_counterexample :
    ((MessageBuffer.init none).add_chunks exampleFragments).2 =
      ["Hello world. How are you?".toList] ∧
    ((MessageBuffer.init none).add_chunks exampleFragments).2 ≠
      ["Hello world.".toList, " How are you?".toList] ∧
    (((MessageBuffer.init none).add_chunks exampleFragments).1.flush).2 = none := by
  refine ⟨by decide, by decide, by decide⟩

/-- Claim C2 amended: `add_chunk` emits at most one unit per fragment; it
emits exactly when the extended buffer ends with a sentence-terminal
character, and what it emits is the entire buffer content (so internal
boundaries are not split); on the example fragments the emitted units are
`["Hello world. How are you?"]` and `flush` afterwards returns `none`. -/
theorem c2_add_chunk_trailing_boundary :
    (∀ (mb : MessageBuffer) (chunk : Text),
      (mb.add_chunk chunk).2.length ≤ 1 ∧
      ((mb.add_chunk chunk).2 ≠ [] ↔
        lastIsPunct (mb.buffer ++ chunk) mb.punctuations = true) ∧
      ((mb.add_chunk chunk).2 ≠ [] →
        (mb.add_chunk chunk).2 = [mb.buffer ++ chunk] ∧
        (mb.add_chunk chunk).1.buffer = [])) ∧
    ((MessageBuffer.init none).add_chunks exampleFragments).2 =
      ["Hello world. How are you?".toList] ∧
    (((MessageBuffer.init none).add_chunks exampleFragments).1.flush).2 = none := by
  refine ⟨fun mb chunk => ?_, by decide, by decide⟩
  unfold MessageBuffer.add_chunk
  by_cases h : lastIsPunct (mb.buffer ++ chunk) mb.punctuations
  · simp [h]
  · simp [h]

/-- Witness for the amended C2 theorem at a concrete fragment: a buffer
holding `"Hi"` extended by `" there."` emits `["Hi there."]`. -/
theorem c2_add_chunk_trailing_boundary_witness :
    ((MessageBuffer.init none).add_chunk "Hi there.".toList).2 =
      ["Hi there.".toList] ∧
    ((MessageBuffer.init none).add_chunk "Hi there.".toList).1.buffer = [] := by
  have h := (c2_add_chunk_trailing_boundary.1 (MessageBuffer.init none)
    "Hi there.".toList).2.2 (by decide)
  exact ⟨by simpa using h.1, h.2⟩

/-- Message roles used by `OpenAIService` (`src/openai_service.py`). -/
inductive Role where
  | system
  | user
  | assistant
deriving DecidableEq

/-- One entry of a message history: a `{"role": ..., "content": ...}`
dictionary. -/
structure Msg where
  role : Role
  content : Text
deriving DecidableEq

/-- One entry of `OpenAIService.data_sources`, flattened from the nested
dictionary built by `set_data_sources` (the constant `"type"` and
`"authentication"` framing carry no state and are kept as fields). -/
structure DataSource where
  endpoint : Text
  api_key : Text
  index_name : Text
  role_information : Text
deriving DecidableEq

/-- The mutable state of `OpenAIService` (`src/openai_service.py`):
the message history and the configured data sources. -/
structure OpenAIService where
  messages : List Msg
  data_sources : List DataSource
deriving DecidableEq

/-- `OpenAIService.__init__`: empty history, no data sources. -/
def OpenAIService.init : OpenAIService := ⟨[], []⟩

/-- `add_system_message`: appends a system message only when
`self.data_sources` is empty (`if not self.data_sources`). -/
def OpenAIService.add_system_message (s : OpenAIService) (content : Text) :
    OpenAIService :=
  if s.data_sources = [] then
    { s with messages := s.messages ++ [⟨Role.system, content⟩] }
  else s

/-- `add_user_message`: unconditionally appends a user message. -/
def OpenAIService.add_user_message (s : OpenAIService) (content : Text) :
    OpenAIService :=
  { s with messages := s.messages ++ [⟨Role.user, content⟩] }

/-- `add_assistant_message`: unconditionally appends an assistant
message. -/
def OpenAIService.add_assistant_message (s : OpenAIService) (content : Text) :
    OpenAIService :=
  { s with messages := s.messages ++ [⟨Role.assistant, content⟩] }

/-- `clear_messages`: empties the history. -/
def OpenAIService.clear_messages (s : OpenAIService) : OpenAIService :=
  { s with messages := [] }

/-- `set_data_sources`: replaces the data-source list by the single
Azure-search entry built from the arguments. -/
def OpenAIService.set_data_sources (s : OpenAIService) (endpoint api_key
    index_name role_information : Text) : OpenAIService :=
  { s with data_sources := [⟨endpoint, api_key, index_name, role_information⟩] }

/-- Outcome of the single HTTP POST made by `get_chat_response`: either a
success carrying the assistant reply extracted from the response JSON, or
a `requests.exceptions.RequestException` carrying the HTTP status code of
the response when one is attached (`none` for a transport error with no
response). -/
inductive ReqOutcome where
  | ok (assistant_reply : Text)
  | err (status : Option Nat)
deriving DecidableEq

/-- The body of the `try` block of `get_chat_response` after
`add_user_message`: one `requests.post` plus `raise_for_status`, raising
(`Except.error`) on transport failure or non-success status. -/
def chatRequest (outcome : ReqOutcome) : Except (Option Nat) Text :=
  match outcome with
  | .ok reply => .ok reply
  | .err status => .error status

/-- The user-facing error message chosen by the `except` handler of
`get_chat_response`, by the attached HTTP status code. -/
def errorMessage (status : Option Nat) : Text :=
  match status with
  | some 404 =>
    "Deployment not found. Please verify your Azure OpenAI deployment name in the .env file.".toList
  | some 401 =>
    "Authentication failed. Please check your API key in the .env file.".toList
  | some 429 =>
    "Rate limit exceeded. Please wait a moment and try again.".toList
  | _ =>
    "I apologize, but I\x27m having trouble connecting to the AI service. Please check your configuration.".toList

/-- `get_chat_response` (`src/openai_service.py`): appends the user
message, issues exactly one request (the `outcome` argument), and either
appends the assistant reply and returns it, or — when the request raised —
catches the exception and returns the user-facing error message without
raising and without appending an assistant message to `self.messages`. -/
def OpenAIService.get_chat_response (s : OpenAIService) (user_query : Text)
    (outcome : ReqOutcome) : OpenAIService × Text :=
  let s₁ := s.add_user_message user_query
  match chatRequest outcome with
  | .ok reply => (s₁.add_assistant_message reply, reply)
  | .error status => (s₁, errorMessage status)

/-- The Streamlit session state of `src/app.py` that the handlers touch. -/
structure AppState where
  openai : OpenAIService
  chat_history : List Msg
  session_active : Bool
  current_response : Text
  message_counter : Nat
  last_voice_text : Option Text
deriving DecidableEq

/-- The `send_clicked` handler of `src/app.py`: guarded by
`send_clicked and user_input and user_input.strip()`; on acceptance it
requests a reply, appends the user and assistant entries to
`chat_history`, stores the reply in `current_response` and bumps
`message_counter`. -/
def send_clicked (st : AppState) (user_input : Text) (outcome : ReqOutcome) :
    AppState :=
  if user_input ≠ [] ∧ pyStrip user_input ≠ [] then
    let r := st.openai.get_chat_response user_input outcome
    { st with
      openai := r.1
      chat_history := st.chat_history ++ [⟨Role.user, user_input⟩, ⟨Role.assistant, r.2⟩]
      current_response := r.2
      message_counter := st.message_counter + 1 }
  else st

/-- The voice-input processing block of `src/app.py` (lines 747-774),
reached with the text extracted from `voice_data`: the only acceptance
check is `not hasattr(..., 'last_voice_text') or last_voice_text != text`
(`last_voice_text = none` models the missing attribute); on acceptance it
records the text, runs the full turn synchronously and bumps
`message_counter`.  The returned flag records whether the submission was
processed. -/
def process_voice (st : AppState) (voice_text : Text) (outcome : ReqOutcome) :
    AppState × Bool :=
  if st.last_voice_text ≠ some voice_text then
    let st₁ := { st with last_voice_text := some voice_text }
    let r := st₁.openai.get_chat_response voice_text outcome
    ({ st₁ with
       openai := r.1
       chat_history :=
         st₁.chat_history ++ [⟨Role.user, voice_text⟩, ⟨Role.assistant, r.2⟩]
       current_response := r.2
       message_counter := st₁.message_counter + 1 }, true)
  else (st, false)

/-- The `stop_session` button handler of `src/app.py` (lines 108-112):
deactivates the session and clears the pending response. -/
def stop_session_clicked (st : AppState) : AppState :=
  { st with session_active := false, current_response := [] }

/-- Python truthiness test `not text or not text.strip()` used by
`_speak_next` in `src/avatar_service.py`. -/
def isBlankText (t : Text) : Bool := t.isEmpty || (pyStrip t).isEmpty

/-- The state of `AvatarService` (`src/avatar_service.py`) relevant to
speech sequencing.  `synth_inflight` marks the one suspension point of
the code — the text for which `_speak_next` is currently blocked inside
`speak_ssml_async(...).get()`; it is `none` when no synthesis call is
outstanding. -/
structure AvatarService where
  is_speaking : Bool
  spoken_text_queue : List Text
  synth_inflight : Option Text
deriving DecidableEq

/-- `AvatarService.__init__`: not speaking, empty queue. -/
def AvatarService.idle : AvatarService := ⟨false, [], none⟩

/-- The entry of `_speak_next` up to the synthesis call: a blank text
returns `False` at once (changing nothing — in particular `is_speaking`
is not set); otherwise `is_speaking` is set and the synthesis of `text`
is started.  The second component lists the unit handed to the renderer
(at most one). -/
def AvatarService.speak_next_start (a : AvatarService) (text : Text) :
    AvatarService × List Text :=
  if isBlankText text then (a, [])
  else ({ a with is_speaking := true, synth_inflight := some text }, [text])

/-- `AvatarService.speak` (lines 80-96): while `is_speaking`, the text is
appended to `spoken_text_queue` instead of being rendered; otherwise
`_speak_next` is entered. -/
def AvatarService.speak (a : AvatarService) (text : Text) :
    AvatarService × List Text :=
  if a.is_speaking = true then
    ({ a with spoken_text_queue := a.spoken_text_queue ++ [text] }, [])
  else a.speak_next_start text

/-- Resumption of `_speak_next` when the outstanding synthesis call
returns (lines 132-150).  On `SynthesizingAudioCompleted` the queue head,
if any, is popped and `_speak_next` is re-entered on it (a blank head
returns `False` immediately, which leaves `is_speaking` set and starts
nothing); with an empty queue `is_speaking` is cleared.  On cancellation
`is_speaking` is cleared and the queue is left as it is.  A completion
with no synthesis outstanding changes nothing. -/
def AvatarService.synth_complete (a : AvatarService) (ok : Bool) :
    AvatarService × List Text :=
  match a.synth_inflight with
  | none => (a, [])
  | some _ =>
    if ok then
      match a.spoken_text_queue with
      | [] => ({ a with is_speaking := false, synth_inflight := none }, [])
      | next :: rest =>
        if isBlankText next then
          ({ a with spoken_text_queue := rest, synth_inflight := none }, [])
        else
          ({ a with spoken_text_queue := rest, synth_inflight := some next },
           [next])
    else ({ a with is_speaking := false, synth_inflight := none }, [])

/-- Events of the avatar-speech transition system: a call to `speak`, or
the return of the outstanding synthesis call (`ok` distinguishes
`SynthesizingAudioCompleted` from `Canceled`). -/
inductive AvatarEv where
  | speakEv (t : Text)
  | completeEv (ok : Bool)

/-- One step of the avatar-speech transition system, returning the new
state and the units handed to the renderer by that step. -/
def AvatarService.step (a : AvatarService) : AvatarEv → AvatarService × List Text
  | .speakEv t => a.speak t
  | .completeEv ok => a.synth_complete ok

/-- Run a sequence of events, collecting the rendered units in order. -/
def AvatarService.run (a : AvatarService) :
    List AvatarEv → AvatarService × List Text
  | [] => (a, [])
  | e :: es =>
    let r₁ := a.step e
    let r₂ := r₁.1.run es
    (r₂.1, r₁.2 ++ r₂.2)

/-- `AvatarService.stop_speaking` (lines 192-214): clears the queue and
the speaking flag; returns `True`. -/
def AvatarService.stop_speaking (a : AvatarService) : AvatarService × Bool :=
  ({ a with spoken_text_queue := [], is_speaking := false }, true)

/-- A heap of Python list objects holding messages, for reasoning about
aliasing: an address is an index into the heap. -/
abbrev MsgHeap := List (List Msg)

/-- Read the list object at an address (empty for a dangling address). -/
def MsgHeap.read (h : MsgHeap) (r : Nat) : List Msg :=
  List.getD h r []

/-- Mutate the list object at an address in place, as Python
`list.append` / `list.remove` / slice assignment do. -/
def MsgHeap.write (h : MsgHeap) (r : Nat) (v : List Msg) : MsgHeap :=
  List.set h r v

/-- Allocate a fresh list object, as a Python list display or
`list.copy()` does, returning the extended heap and the new address. -/
def MsgHeap.alloc (h : MsgHeap) (v : List Msg) : MsgHeap × Nat :=
  (h ++ [v], h.length)

/-- An `OpenAIService` whose `self.messages` attribute is a reference
into the heap. -/
structure OpenAIServiceRef where
  messagesRef : Nat

/-- `get_messages` (`src/openai_service.py` line 523-525):
`return self.messages.copy()` — allocates a fresh list holding the same
elements and returns (a reference to) it. -/
def get_messages (h : MsgHeap) (s : OpenAIServiceRef) : MsgHeap × Nat :=
  h.alloc (h.read s.messagesRef)

/-- The session state right after the initialization block of
`src/app.py` with no data sources and empty histories, session active,
no voice text received yet. -/
def appStart : AppState := ⟨OpenAIService.init, [], true, [], 0, none⟩

/-- Claim C3: the speech queue renders at most one unit at any instant
and strictly in enqueue order — a `speak` call made while a unit is
active appends to `spoken_text_queue` and renders nothing; every step
hands the renderer at most one unit; and enqueuing three (non-blank)
units A, B, C with the three corresponding successful completions renders
exactly A, B, C in that order and leaves the queue idle (`is_speaking`
false, queue empty). -/
theorem c3_speech_queue_serialization :
    (∀ (a : AvatarService) (t : Text), a.is_speaking = true →
      a.speak t = ({ a with spoken_text_queue := a.spoken_text_queue ++ [t] }, [])) ∧
    (∀ (a : AvatarService) (e : AvatarEv), (a.step e).2.length ≤ 1) ∧
    (∀ A B C : Text, isBlankText A = false → isBlankText B = false →
      isBlankText C = false →
      AvatarService.idle.run
        [.speakEv A, .speakEv B, .speakEv C,
         .completeEv true, .completeEv true, .completeEv true] =
        (AvatarService.idle, [A, B, C])) := by
  refine ⟨?_, ?_, ?_⟩
  · intro a t h
    simp [AvatarService.speak, h]
  · intro a e
    obtain ⟨spk, q, infl⟩ := a
    rcases e with t | ok
    · by_cases h : spk = true
      · simp [AvatarService.step, AvatarService.speak, h]
      · by_cases hb : isBlankText t <;>
          simp [AvatarService.step, AvatarService.speak,
            AvatarService.speak_next_start, h, hb]
    · rcases infl with _ | u
      · simp [AvatarService.step, AvatarService.synth_complete]
      · cases ok
        · simp [AvatarService.step, AvatarService.synth_complete]
        · rcases q with _ | ⟨n, rest⟩
          · simp [AvatarService.step, AvatarService.synth_complete]
          · by_cases hb : isBlankText n <;>
              simp [AvatarService.step, AvatarService.synth_complete, hb]
  · intro A B C hA hB hC
    simp [AvatarService.run, AvatarService.step, AvatarService.speak,
      AvatarService.speak_next_start, AvatarService.synth_complete,
      AvatarService.idle, hA, hB, hC]

/-- Witness for C3 at the concrete units `"A."`, `"B."`, `"C."`. -/
theorem c3_speech_queue_serialization_witness :
    AvatarService.idle.run
      [.speakEv "A.".toList, .speakEv "B.".toList, .speakEv "C.".toList,
       .completeEv true, .completeEv true, .completeEv true] =
      (AvatarService.idle, ["A.".toList, "B.".toList, "C.".toList]) :=
  c3_speech_queue_serialization.2.2 "A.".toList "B.".toList "C.".toList
    (by decide) (by decide) (by decide)

/-- Claim C4 counterexample: the first voice submission of `"hi"` is
accepted and its turn runs to completion within the handler (the counter
is bumped and the assistant reply is in the history), yet a second voice
submission of the same text `"hi"` afterwards is rejected — the code
never resets `last_voice_text` on turn completion, contradicting the
claim that the text is accepted again after the prior turn completes. -/
theorem c4_counterexample :
    (process_voice appStart "hi".toList (.ok "hello".toList)).2 = true ∧
    (process_voice appStart "hi".toList (.ok "hello".toList)).1.message_counter = 1 ∧
    (process_voice appStart "hi".toList (.ok "hello".toList)).1.chat_history =
      [⟨Role.user, "hi".toList⟩, ⟨Role.assistant, "hello".toList⟩] ∧
    (process_voice (process_voice appStart "hi".toList (.ok "hello".toList)).1
      "hi".toList (.ok "again".toList)).2 = false := by
  refine ⟨by decide, by decide, by decide, by decide⟩

/-- Claim C4 amended: a voice submission is accepted exactly when its
text differs from the stored `last_voice_text`; hence a repeated
identical submission is always rejected — regardless of intervening turn
completions — and the same text is accepted again only after a voice
submission with a different text. -/
theorem c4_voice_dedup_on_last_text :
    ∀ (st : AppState) (t : Text) (o o₂ o₃ : ReqOutcome),
      ((process_voice st t o).2 = true ↔ st.last_voice_text ≠ some t) ∧
      (process_voice (process_voice st t o).1 t o₂).2 = false ∧
      (∀ t₂, t₂ ≠ t →
        (process_voice (process_voice st t₂ o₂).1 t o₃).2 = true) := by
  intro st t o o₂ o₃
  refine ⟨?_, ?_, ?_⟩
  · by_cases h : st.last_voice_text = some t <;> simp [process_voice, h]
  · by_cases h : st.last_voice_text = some t <;> simp [process_voice, h]
  · intro t₂ hne
    by_cases h : st.last_voice_text = some t₂ <;>
      simp [process_voice, h, hne]

/-- Witness for the amended C4 theorem: `"hi"` then `"hi"` is rejected,
while `"bye"` then `"hi"` is accepted. -/
theorem c4_voice_dedup_on_last_text_witness :
    (process_voice (process_voice appStart "hi".toList (.ok "r".toList)).1
      "hi".toList (.ok "r".toList)).2 = false ∧
    (process_voice (process_voice appStart "bye".toList (.ok "r".toList)).1
      "hi".toList (.ok "r".toList)).2 = true :=
  ⟨(c4_voice_dedup_on_last_text appStart "hi".toList (.ok "r".toList)
      (.ok "r".toList) (.ok "r".toList)).2.1,
   (c4_voice_dedup_on_last_text appStart "hi".toList (.ok "r".toList)
      (.ok "r".toList) (.ok "r".toList)).2.2 "bye".toList (by decide)⟩

/-- Claim C5: when the model request fails (transport error or
non-success HTTP status), `get_chat_response` catches the exception and
returns the single user-facing error message instead of raising, and the
`send_clicked` handler finalizes the turn in one piece: the user entry
and the substituted assistant error message are both appended to the
transcript, the error message becomes the current response, and the turn
counter advances — no retry (exactly one request outcome is consumed)
and no half-applied history. -/
theorem c5_stream_failure_finalized :
    ∀ (st : AppState) (q : Text) (status : Option Nat),
      q ≠ [] → pyStrip q ≠ [] →
      (send_clicked st q (.err status)).chat_history =
        st.chat_history ++
          [⟨Role.user, q⟩, ⟨Role.assistant, errorMessage status⟩] ∧
      (send_clicked st q (.err status)).current_response = errorMessage status ∧
      (send_clicked st q (.err status)).message_counter = st.message_counter + 1 ∧
      (send_clicked st q (.err status)).openai.messages =
        st.openai.messages ++ [⟨Role.user, q⟩] ∧
      (st.openai.get_chat_response q (.err status)).2 = errorMessage status := by
  intro st q status h₁ h₂
  have hg : q ≠ [] ∧ pyStrip q ≠ [] := ⟨h₁, h₂⟩
  refine ⟨?_, ?_, ?_, ?_, ?_⟩ <;>
    simp [send_clicked, hg, OpenAIService.get_chat_response, chatRequest,
      OpenAIService.add_user_message]

/-- Witness for C5 at the concrete query `"hello"` failing with HTTP
status 429. -/
theorem c5_stream_failure_finalized_witness :
    (send_clicked appStart "hello".toList (.err (some 429))).chat_history =
      appStart.chat_history ++
        [⟨Role.user, "hello".toList⟩,
         ⟨Role.assistant, errorMessage (some 429)⟩] ∧
    (send_clicked appStart "hello".toList (.err (some 429))).current_response =
      errorMessage (some 429) ∧
    (send_clicked appStart "hello".toList (.err (some 429))).message_counter =
      appStart.message_counter + 1 ∧
    (send_clicked appStart "hello".toList (.err (some 429))).openai.messages =
      appStart.openai.messages ++ [⟨Role.user, "hello".toList⟩] ∧
    (appStart.openai.get_chat_response "hello".toList (.err (some 429))).2 =
      errorMessage (some 429) :=
  c5_stream_failure_finalized appStart "hello".toList (some 429)
    (by decide) (by decide)

/-- Claim C6: `add_system_message` appends the system-role message to the
history exactly when the service has no data sources configured, and
leaves the service unchanged when data sources are configured. -/
theorem c6_system_message_iff_no_data_sources :
    ∀ (s : OpenAIService) (content : Text),
      (s.data_sources = [] →
        (s.add_system_message content).messages =
          s.messages ++ [⟨Role.system, content⟩]) ∧
      (s.data_sources ≠ [] → s.add_system_message content = s) := by
  intro s content
  constructor
  · intro h
    simp [OpenAIService.add_system_message, h]
  · intro h
    simp [OpenAIService.add_system_message, h]

/-- A concrete data-source entry, as `set_data_sources` would build. -/
def dsExample : DataSource :=
  ⟨"https://ex.search.windows.net".toList, "key".toList, "idx".toList,
   "You are a tutor.".toList⟩

/-- Witness for C6: the fresh service appends the system message; a
service with a configured data source is left unchanged. -/
theorem c6_system_message_iff_no_data_sources_witness :
    (OpenAIService.init.add_system_message "Be helpful.".toList).messages =
      [⟨Role.system, "Be helpful.".toList⟩] ∧
    (OpenAIService.mk [] [dsExample]).add_system_message "Be helpful.".toList =
      OpenAIService.mk [] [dsExample] :=
  ⟨(c6_system_message_iff_no_data_sources OpenAIService.init
      "Be helpful.".toList).1 rfl,
   (c6_system_message_iff_no_data_sources (OpenAIService.mk [] [dsExample])
      "Be helpful.".toList).2 (by simp)⟩

/-- Claim C7 counterexample: the voice-processing block of `src/app.py`
performs no emptiness check — the whitespace-only voice text `" "`
(differing from the stored `last_voice_text`) is processed: a user
message is appended to both histories and the model request is issued
(its reply lands in the history), although `" "` strips to empty. -/
theorem c7_counterexample :
    (process_voice appStart " ".toList (.ok "resp".toList)).2 = true ∧
    (process_voice appStart " ".toList (.ok "resp".toList)).1.chat_history =
      [⟨Role.user, " ".toList⟩, ⟨Role.assistant, "resp".toList⟩] ∧
    (process_voice appStart " ".toList (.ok "resp".toList)).1.openai.messages =
      [⟨Role.user, " ".toList⟩, ⟨Role.assistant, "resp".toList⟩] ∧
    pyStrip " ".toList = [] := by
  refine ⟨by decide, by decide, by decide, by decide⟩

/-- Claim C7 amended: the typed channel rejects empty or whitespace-only
input (state unchanged: no message appended, no request issued), while
the voice channel checks only duplication against `last_voice_text` —
its acceptance is independent of emptiness, so whitespace-only voice
text differing from the last is processed. -/
theorem c7_empty_input_rejected_typed_only :
    ∀ (st : AppState) (q : Text) (o : ReqOutcome),
      (pyStrip q = [] → send_clicked st q o = st) ∧
      ((process_voice st q o).2 = true ↔ st.last_voice_text ≠ some q) := by
  intro st q o
  constructor
  · intro h
    have hg : ¬(q ≠ [] ∧ pyStrip q ≠ []) := fun hc => hc.2 h
    unfold send_clicked
    rw [if_neg hg]
  · by_cases h : st.last_voice_text = some q <;> simp [process_voice, h]

/-- Witness for the amended C7 theorem: the whitespace-only typed input
`"  "` leaves the session state unchanged. -/
theorem c7_empty_input_rejected_typed_only_witness :
    send_clicked appStart "  ".toList (.ok "r".toList) = appStart :=
  (c7_empty_input_rejected_typed_only appStart "  ".toList
    (.ok "r".toList)).1 (by decide)

/-- Claim C8: stopping the session deactivates it and cancels the speech
queue (pending units cleared, speaking flag down, pending response
cleared), while both message histories — the transcript and the model
context — are exactly what they were before. -/
theorem c8_stop_preserves_history :
    ∀ (st : AppState) (a : AvatarService),
      (stop_session_clicked st).session_active = false ∧
      (stop_session_clicked st).current_response = [] ∧
      (a.stop_speaking).1.spoken_text_queue = [] ∧
      (a.stop_speaking).1.is_speaking = false ∧
      (stop_session_clicked st).chat_history = st.chat_history ∧
      (stop_session_clicked st).openai = st.openai := by
  intro st a
  exact ⟨rfl, rfl, rfl, rfl, rfl, rfl⟩

/-- Claim C9: `get_messages` returns a copy — the returned list object is
element-wise equal to the internal history, lives at a fresh address, and
overwriting it with any value (an append, removal, or any other in-place
mutation) leaves the list the service's own reference points to
unchanged. -/
theorem c9_get_messages_returns_copy :
    ∀ (h : MsgHeap) (s : OpenAIServiceRef), s.messagesRef < h.length →
      (get_messages h s).1.read (get_messages h s).2 = h.read s.messagesRef ∧
      (get_messages h s).2 ≠ s.messagesRef ∧
      ∀ v, ((get_messages h s).1.write (get_messages h s).2 v).read
        s.messagesRef = h.read s.messagesRef := by
  intro h s hlt
  refine ⟨?_, ?_, ?_⟩
  · simp [get_messages, MsgHeap.alloc, MsgHeap.read,
      List.getD_eq_getElem?_getD, List.getElem?_append_right]
  · exact Ne.symm (Nat.ne_of_lt hlt)
  · intro v
    simp only [get_messages, MsgHeap.alloc, MsgHeap.read, MsgHeap.write,
      List.getD_eq_getElem?_getD]
    rw [List.getElem?_set_ne (Ne.symm (Nat.ne_of_lt hlt))]
    rw [List.getElem?_append_left hlt]

/-- A concrete message for the C9 witness. -/
def msgExample : Msg := ⟨Role.user, "hi".toList⟩

/-- Witness for C9 on a one-cell heap: the copy equals the original, and
clobbering the copy leaves the original intact. -/
theorem c9_get_messages_returns_copy_witness :
    (get_messages [[msgExample]] ⟨0⟩).1.read (get_messages [[msgExample]] ⟨0⟩).2 =
      [msgExample] ∧
    ((get_messages [[msgExample]] ⟨0⟩).1.write
      (get_messages [[msgExample]] ⟨0⟩).2 []).read 0 = [msgExample] := by
  have h := c9_get_messages_returns_copy [[msgExample]] ⟨0⟩ (by decide)
  exact ⟨h.1, h.2.2 []⟩

/-- Every character of a stripped string is a character of the string. -/
theorem mem_pyStrip {c : Char} {l : Text} (h : c ∈ pyStrip l) : c ∈ l := by
  unfold pyStrip at h
  rw [List.mem_reverse] at h
  have h₁ := (List.dropWhile_sublist _).mem h
  rw [List.mem_reverse] at h₁
  exact (List.dropWhile_sublist _).mem h₁

/-- Claim C10: `sanitize_input` returns a string of length at most
`max_length` containing no character of the removed control ranges
(U+0000-U+0008, U+000B-U+000C, U+000E-U+001F, U+007F-U+009F), and maps
the empty string to the empty string. -/
theorem c10_sanitize_input_safe :
    ∀ (text : Text) (max_length : Nat),
      (sanitize_input text max_length).length ≤ max_length ∧
      (∀ c ∈ sanitize_input text max_length, isRemovedControl c = false) ∧
      sanitize_input [] max_length = [] := by
  intro text max_length
  refine ⟨?_, ?_, by simp [sanitize_input]⟩
  · unfold sanitize_input
    by_cases h : text = []
    · simp [h]
    · simp only [h, if_false]
      by_cases hl : max_length <
          (pyStrip (text.filter (fun c => !(isRemovedControl c)))).length
      · simp only [hl, if_true, List.length_take]
        exact min_le_left _ _
      · simp only [hl, if_false]
        exact Nat.le_of_not_lt hl
  · intro c hc
    unfold sanitize_input at hc
    by_cases h : text = []
    · simp [h] at hc
    · simp only [h, if_false] at hc
      have hmem : c ∈ pyStrip (text.filter (fun x => !(isRemovedControl x))) := by
        by_cases hl : max_length <
            (pyStrip (text.filter (fun x => !(isRemovedControl x)))).length
        · simp only [hl, if_true] at hc
          exact List.mem_of_mem_take hc
        · simpa only [hl, if_false] using hc
      have hfil := mem_pyStrip hmem
      have := (List.mem_filter.mp hfil).2
      simpa using this

/-- Witness for C10: on `"ab\x01c."` with `max_length = 3`, the result is
within the bound and the character `a` it contains is not a control
character. -/
theorem c10_sanitize_input_safe_witness :
    (sanitize_input "ab\x01c.".toList 3).length ≤ 3 ∧
    isRemovedControl 'a' = false := by
  have h := c10_sanitize_input_safe "ab\x01c.".toList 3
  exact ⟨h.1, h.2.1 'a' (by decide)⟩

end AvatarTutor
